import Mathlib

/-!
Verification development for the `dinox_api` client module
(`src/dinox_api.py`), a synchronous submit/poll wrapper around a remote
vision-detection HTTP API.

The embedding is shallow: an HTTP exchange is modelled by the response the
remote service would produce for it, already parsed from JSON.  Response
bodies are assumed to have the documented envelope shape (the envelope and
its `data` member parse to JSON mappings); the individual field values stay
untyped (`JVal`).  Wall-clock time is not modelled: `time.sleep` calls are
counted, not timed.  Python exceptions are modelled with `Except` /
explicit outcome constructors.
-/

namespace Dinox

/-- Untyped JSON value, the codomain of Python dict lookups in the client. -/
inductive JVal where
  | null : JVal
  | bool (b : Bool) : JVal
  | num (n : Int) : JVal
  | str (s : String) : JVal
  | arr (elems : List JVal) : JVal
  | obj (fields : List (String × JVal)) : JVal

/-- Python truthiness of a JSON value (`if value:`). -/
def JVal.truthy : JVal → Bool
  | .null => false
  | .bool b => b
  | .num n => n != 0
  | .str s => s != ""
  | .arr elems => !elems.isEmpty
  | .obj fields => !fields.isEmpty

/-- Python `value == 0` for a JSON value (`0`, `False` and `0.0` are all
equal to `0` in Python; floats are out of scope, integers and booleans are
covered). -/
def JVal.eqZero : JVal → Bool
  | .num n => n == 0
  | .bool b => b == false
  | _ => false

/-- Python `envelope.get "code" == 0`: a missing key (`None`) is not `0`. -/
def codeIsZero : Option JVal → Bool
  | some v => v.eqZero
  | none => false

/-- Python `status == s` where `status` is an arbitrary JSON value obtained by
`data.get "status"`: true exactly when it is the string `s`. -/
def statusIs (v : Option JVal) (s : String) : Bool :=
  match v with
  | some (JVal.str t) => t == s
  | _ => false

/-- The `data` member of a parsed task-status envelope
(`GET task_status/...`): a mapping whose fields of interest are `status`,
`session_id`, `result` and `error`, each possibly absent. -/
structure StatusData where
  status : Option JVal
  session_id : Option JVal
  result : Option JVal
  error : Option JVal

/-- One response of the task-status endpoint: HTTP status code plus the
parsed body envelope fields the client reads (`code`, `msg`, `data`). -/
structure StatusResponse where
  status_code : Nat
  code : Option JVal
  msg : Option JVal
  data : Option StatusData

/-- The `data` member of a parsed submit envelope (`POST detection` /
`POST region_vl`). -/
structure SubmitData where
  task_uuid : Option JVal

/-- One response of a submit endpoint. -/
structure SubmitResponse where
  status_code : Nat
  code : Option JVal
  msg : Option JVal
  data : Option SubmitData

/-- Line 16: `API_TOKEN = os.getenv("DINOX_API_TOKEN") or "你的API令牌"`;
`env` is the environment variable's value (`none` when unset); `or` falls
through on a falsy (empty) string. -/
def API_TOKEN (env : Option String) : String :=
  match env with
  | none => "你的API令牌"
  | some s => if s = "" then "你的API令牌" else s

/-- The headers dict sent with every request (lines 70-73, 111-114, 268-271). -/
def requestHeaders (token : String) : List (String × String) :=
  [("Token", token), ("Content-Type", "application/json")]

/-- Reasons `detect_objects_async` / `create_region_vl_task` raise:
missing token (`ValueError`, the spec's `ConfigurationError`), non-200 HTTP
status, non-zero envelope code, missing `data`, missing `data.task_uuid`
(the spec's `ApiError` with its causing detail). -/
inductive SubmitError where
  | configError : SubmitError
  | httpError (status_code : Nat) : SubmitError
  | apiFailed (msg : Option JVal) : SubmitError
  | missingData : SubmitError
  | missingTaskUuid : SubmitError

/-- Lines 37-101, `detect_objects_async`: token guard, then the submit
POST; the response is checked for HTTP 200, envelope `code == 0`, a `data`
field and a `data.task_uuid` field, in that order; the task uuid is
returned, any violation raises. -/
def detect_objects_async (token : String) (resp : SubmitResponse) :
    Except SubmitError JVal :=
  if token = "" then .error .configError
  else if resp.status_code ≠ 200 then .error (.httpError resp.status_code)
  else if !codeIsZero resp.code then .error (.apiFailed resp.msg)
  else
    match resp.data with
    | none => .error .missingData
    | some d =>
      match d.task_uuid with
      | none => .error .missingTaskUuid
      | some u => .ok u

/-- Lines 235-290, `create_region_vl_task`: identical guard and response
checking as `detect_objects_async`, against the region_vl endpoint. -/
def create_region_vl_task (token : String) (resp : SubmitResponse) :
    Except SubmitError JVal :=
  if token = "" then .error .configError
  else if resp.status_code ≠ 200 then .error (.httpError resp.status_code)
  else if !codeIsZero resp.code then .error (.apiFailed resp.msg)
  else
    match resp.data with
    | none => .error .missingData
    | some d =>
      match d.task_uuid with
      | none => .error .missingTaskUuid
      | some u => .ok u

/-- Terminal outcome of the polling loop: a returned `(result, session_id)`
pair, a raised `Task failed` exception carrying the error value, or the
raised timeout exception. -/
inductive PollOutcome where
  | ok (result : JVal) (session_id : Option JVal) : PollOutcome
  | taskFailed (error : JVal) : PollOutcome
  | timeout : PollOutcome

/-- Observable trace of one `get_task_result` run: its outcome, how many
GETs of the status endpoint it performed, and how many `time.sleep` calls
it made. -/
structure PollTrace where
  outcome : PollOutcome
  fetches : Nat
  sleeps : Nat

/-- What one loop iteration of `get_task_result` does with the fetched
response: either finish with a terminal outcome, or sleep and go on to the
next attempt. -/
inductive StepAction where
  | retryStep : StepAction
  | finish (o : PollOutcome) : StepAction

/-- One iteration body of the `for retry in range(max_retries)` loop
(lines 119-170): non-200 status, non-zero envelope code and missing `data`
sleep and continue; `status == "success"` returns (`{}` when `result` is
absent); `status == "failed"` raises with `data.get("error", "Unknown
error")`; every other status (`waiting`, `running`, unrecognized) sleeps
and continues. -/
def pollStep (r : StatusResponse) : StepAction :=
  if r.status_code ≠ 200 then .retryStep
  else if !codeIsZero r.code then .retryStep
  else
    match r.data with
    | none => .retryStep
    | some d =>
      if statusIs d.status "success" then
        match d.result with
        | none => .finish (.ok (JVal.obj []) d.session_id)
        | some res => .finish (.ok res d.session_id)
      else if statusIs d.status "failed" then
        .finish (.taskFailed (d.error.getD (JVal.str "Unknown error")))
      else .retryStep

/-- The polling loop from attempt index `start` with `rem` attempts left;
`service i` is the response the status endpoint produces for the i-th GET.
Exhausting the budget raises the timeout exception. -/
def pollFrom (service : Nat → StatusResponse) : Nat → Nat → PollTrace
  | _start, 0 => ⟨.timeout, 0, 0⟩
  | start, rem + 1 =>
    match pollStep (service start) with
    | .finish o => ⟨o, 1, 0⟩
    | .retryStep =>
      let t := pollFrom service (start + 1) rem
      ⟨t.outcome, t.fetches + 1, t.sleeps + 1⟩

/-- Lines 103-172, `get_task_result`: token guard (`ValueError`), then the
polling loop over `max_retries` attempts.  `retry_interval` only scales the
sleep durations and is not part of the observable trace. -/
def get_task_result (token : String) (service : Nat → StatusResponse)
    (max_retries : Nat) : Except String PollTrace :=
  if token = "" then
    .error "API token not found. Please set the DINOX_API_TOKEN environment variable."
  else .ok (pollFrom service 0 max_retries)

/-- The recovered-empty result `{"objects": []}` both fail-open entry
points substitute on any caught exception (lines 233, 317). -/
def emptyObjects : JVal :=
  JVal.obj [("objects", JVal.arr [])]

/-- First-match association lookup in a JSON mapping (parsed JSON has no
duplicate keys). -/
def jlookup (key : String) : List (String × JVal) → Option JVal
  | [] => none
  | (k, v) :: rest => if k = key then some v else jlookup key rest

/-- Whether the character list `needle` starts the character list `hay`. -/
def charsStart : List Char → List Char → Bool
  | [], _ => true
  | _ :: _, [] => false
  | a :: as, b :: bs => a == b && charsStart as bs

/-- Whether `needle` occurs as a contiguous run inside `hay`
(Python `needle in hay` on strings). -/
def charsSubstr (needle : List Char) : List Char → Bool
  | [] => charsStart needle []
  | c :: cs => charsStart needle (c :: cs) || charsSubstr needle cs

/-- Whether the result-printing loop of `detect_objects` (lines 213-222)
raises on the polled result value: `"objects" in result` raises `TypeError`
on numbers, booleans and `None`; when the lookup succeeds,
`enumerate(result["objects"])` and `obj.items()` raise unless the value is
a list of mappings (or the iteration is empty).  The raise is caught by the
surrounding `except` and converted to the empty result. -/
def printLoopRaises (result : JVal) : Bool :=
  match result with
  | .obj fields =>
    match jlookup "objects" fields with
    | none => false
    | some (.arr elems) =>
      elems.any fun o =>
        match o with
        | .obj _ => false
        | _ => true
    | some (.str s) => s != ""
    | some (.obj inner) => !inner.isEmpty
    | some _ => true
  | .arr elems =>
    elems.any fun e =>
      match e with
      | .str s => s == "objects"
      | _ => false
  | .str s => charsSubstr "objects".toList s.toList
  | _ => true

/-- Lines 174-233, `detect_objects`: submit, then poll with the default
budget of 30 attempts, all inside one `try`; any exception — from the
submit, from the poll (task failure or timeout), or from the
result-printing loop — is caught and turned into
`({"objects": []}, session_id)` with the caller's `session_id`. -/
def detect_objects (token : String) (submitResp : SubmitResponse)
    (service : Nat → StatusResponse) (session_id : Option JVal) :
    JVal × Option JVal :=
  match detect_objects_async token submitResp with
  | .error _ => (emptyObjects, session_id)
  | .ok _task_uuid =>
    match get_task_result token service 30 with
    | .error _ => (emptyObjects, session_id)
    | .ok t =>
      match t.outcome with
      | .ok result new_session_id =>
        if printLoopRaises result then (emptyObjects, session_id)
        else (result, new_session_id)
      | .taskFailed _ => (emptyObjects, session_id)
      | .timeout => (emptyObjects, session_id)

/-- Lines 292-317, `get_region_descriptions`: submit a region_vl task,
then poll with the default budget of 30 attempts, all inside one `try`;
any exception is caught and turned into `({"objects": []}, session_id)`
with the caller's `session_id`. -/
def get_region_descriptions (token : String) (submitResp : SubmitResponse)
    (service : Nat → StatusResponse) (session_id : Option JVal) :
    JVal × Option JVal :=
  match create_region_vl_task token submitResp with
  | .error _ => (emptyObjects, session_id)
  | .ok _task_uuid =>
    match get_task_result token service 30 with
    | .error _ => (emptyObjects, session_id)
    | .ok t =>
      match t.outcome with
      | .ok result new_session_id => (result, new_session_id)
      | .taskFailed _ => (emptyObjects, session_id)
      | .timeout => (emptyObjects, session_id)

/-- Python truthiness of the optional `prompt_text` string argument. -/
def strTruthy : Option String → Bool
  | none => false
  | some s => s != ""

/-- Python truthiness of an optional JSON value argument
(`prompt_universal`, `session_id`). -/
def optTruthy : Option JVal → Bool
  | none => false
  | some v => v.truthy

/-- Prompt-dict construction shared by `detect_objects_async`
(lines 50-54) and `create_region_vl_task` (lines 257-261): start from
`{"type": prompt_type}`, add `"text"` only when the type is `"text"` and
`prompt_text` is truthy, else add `"universal"` only when the type is
`"universal"` and `prompt_universal` is truthy. -/
def buildPrompt (prompt_type : String) (prompt_text : Option String)
    (prompt_universal : Option JVal) : List (String × JVal) :=
  if prompt_type = "text" && strTruthy prompt_text then
    [("type", JVal.str prompt_type), ("text", JVal.str (prompt_text.getD ""))]
  else if prompt_type = "universal" && optTruthy prompt_universal then
    [("type", JVal.str prompt_type), ("universal", prompt_universal.getD JVal.null)]
  else [("type", JVal.str prompt_type)]

/-- The optional `prompt` entry of the `create_region_vl_task` payload
(lines 256-262): present only when `prompt_type` is truthy. -/
def regionPrompt (prompt_type : Option String) (prompt_text : Option String)
    (prompt_universal : Option JVal) : Option (List (String × JVal)) :=
  match prompt_type with
  | none => none
  | some pt => if pt = "" then none else some (buildPrompt pt prompt_text prompt_universal)

/-! Predicates on responses, phrased the way the spec describes envelopes. -/

/-- A well-formed non-terminal envelope: HTTP 200, envelope code equal to
0, and a `data` member whose `status` is `"running"` or `"waiting"`. -/
def runningOrWaiting (r : StatusResponse) : Prop :=
  r.status_code = 200 ∧ codeIsZero r.code = true ∧
  ∃ d, r.data = some d ∧
    (d.status = some (JVal.str "running") ∨ d.status = some (JVal.str "waiting"))

/-- A well-formed terminal success envelope carrying a `result` field. -/
def successWithResult (r : StatusResponse) (res : JVal) (sid : Option JVal) : Prop :=
  r.status_code = 200 ∧ codeIsZero r.code = true ∧
  ∃ d, r.data = some d ∧ d.status = some (JVal.str "success") ∧
    d.result = some res ∧ d.session_id = sid

/-- A well-formed envelope whose `data` member is `d` with status `"success"`. -/
def successEnvelope (r : StatusResponse) (d : StatusData) : Prop :=
  r.status_code = 200 ∧ codeIsZero r.code = true ∧ r.data = some d ∧
  d.status = some (JVal.str "success")

/-- A well-formed envelope whose `data` member is `d` with status `"failed"`. -/
def failedEnvelope (r : StatusResponse) (d : StatusData) : Prop :=
  r.status_code = 200 ∧ codeIsZero r.code = true ∧ r.data = some d ∧
  d.status = some (JVal.str "failed")

/-- A transient-fault response: HTTP status other than 200, or envelope
code not equal to 0, or no `data` field. -/
def transientFault (r : StatusResponse) : Prop :=
  r.status_code ≠ 200 ∨ codeIsZero r.code = false ∨ r.data = none

/-- Any response the polling loop does not terminate on: a transient fault
or a well-formed envelope whose status is neither `"success"` nor
`"failed"` (`waiting`, `running`, unrecognized, absent). -/
def nonterminalAttempt (r : StatusResponse) : Prop :=
  transientFault r ∨
  ∃ d, r.data = some d ∧ statusIs d.status "success" = false ∧
    statusIs d.status "failed" = false

/-- The submit success contract: HTTP 200, envelope code equal to 0, and a
`data.task_uuid` field holding `u`. -/
def submitSuccess (resp : SubmitResponse) (u : JVal) : Prop :=
  resp.status_code = 200 ∧ codeIsZero resp.code = true ∧
  ∃ d, resp.data = some d ∧ d.task_uuid = some u

/-! Behaviour of one loop iteration. -/

lemma pollStep_retry {r : StatusResponse} (h : nonterminalAttempt r) :
    pollStep r = .retryStep := by
  by_cases h200 : r.status_code ≠ 200
  · simp [pollStep, h200]
  by_cases hcode : codeIsZero r.code
  · rcases h with (h1 | h2 | h3) | ⟨d, hd, hs, hf⟩
    · exact absurd h1 h200
    · simp [hcode] at h2
    · simp [pollStep, h200, hcode, h3]
    · simp [pollStep, h200, hcode, hd, hs, hf]
  · simp [pollStep, h200, hcode]

lemma pollStep_success_result {r : StatusResponse} {d : StatusData} {res : JVal}
    (h200 : r.status_code = 200) (hcode : codeIsZero r.code = true)
    (hd : r.data = some d) (hs : d.status = some (JVal.str "success"))
    (hres : d.result = some res) :
    pollStep r = .finish (.ok res d.session_id) := by
  simp [pollStep, h200, hcode, hd, hs, hres, statusIs]

lemma pollStep_success_degraded {r : StatusResponse} {d : StatusData}
    (h200 : r.status_code = 200) (hcode : codeIsZero r.code = true)
    (hd : r.data = some d) (hs : d.status = some (JVal.str "success"))
    (hres : d.result = none) :
    pollStep r = .finish (.ok (JVal.obj []) d.session_id) := by
  simp [pollStep, h200, hcode, hd, hs, hres, statusIs]

lemma pollStep_failed {r : StatusResponse} {d : StatusData}
    (h200 : r.status_code = 200) (hcode : codeIsZero r.code = true)
    (hd : r.data = some d) (hs : d.status = some (JVal.str "failed")) :
    pollStep r = .finish (.taskFailed (d.error.getD (JVal.str "Unknown error"))) := by
  simp [pollStep, h200, hcode, hd, hs, statusIs]

lemma pollStep_taskFailed_inv {r : StatusResponse} {e : JVal}
    (h : pollStep r = .finish (.taskFailed e)) :
    ∃ d, r.data = some d ∧ statusIs d.status "failed" = true ∧
      e = d.error.getD (JVal.str "Unknown error") := by
  unfold pollStep at h
  split at h
  · exact absurd h (by simp)
  · split at h
    · exact absurd h (by simp)
    · split at h
      · exact absurd h (by simp)
      · rename_i d hd
        split at h
        · split at h <;> simp_all
        · split at h
          · exact ⟨d, hd, by assumption, by simp_all⟩
          · exact absurd h (by simp)

/-! Behaviour of the polling loop. -/

lemma pollFrom_zero (service : Nat → StatusResponse) (start : Nat) :
    pollFrom service start 0 = ⟨.timeout, 0, 0⟩ := rfl

lemma pollFrom_succ_finish {service : Nat → StatusResponse} {start : Nat}
    {o : PollOutcome} (rem : Nat) (h : pollStep (service start) = .finish o) :
    pollFrom service start (rem + 1) = ⟨o, 1, 0⟩ := by
  simp [pollFrom, h]

lemma pollFrom_succ_retry {service : Nat → StatusResponse} {start : Nat}
    (rem : Nat) (h : pollStep (service start) = .retryStep) :
    pollFrom service start (rem + 1) =
      ⟨(pollFrom service (start + 1) rem).outcome,
       (pollFrom service (start + 1) rem).fetches + 1,
       (pollFrom service (start + 1) rem).sleeps + 1⟩ := by
  simp [pollFrom, h]

lemma pollFrom_timeout (service : Nat → StatusResponse) :
    ∀ rem start, (∀ i, i < rem → pollStep (service (start + i)) = .retryStep) →
      pollFrom service start rem = ⟨.timeout, rem, rem⟩ := by
  intro rem
  induction rem with
  | zero => intro start _; rfl
  | succ n ih =>
    intro start h
    rw [pollFrom_succ_retry n (by simpa using h 0 (Nat.succ_pos n))]
    rw [ih (start + 1) fun i hi => by
      have := h (i + 1) (by omega)
      rwa [show start + (i + 1) = start + 1 + i by omega] at this]

lemma pollFrom_reach_finish (service : Nat → StatusResponse) (o : PollOutcome) :
    ∀ N start rem, N < rem →
      (∀ i, i < N → pollStep (service (start + i)) = .retryStep) →
      pollStep (service (start + N)) = .finish o →
      pollFrom service start rem = ⟨o, N + 1, N⟩ := by
  intro N
  induction N with
  | zero =>
    intro start rem hrem _ hfin
    obtain ⟨rem', rfl⟩ : ∃ m, rem = m + 1 := ⟨rem - 1, by omega⟩
    exact pollFrom_succ_finish rem' (by simpa using hfin)
  | succ n ih =>
    intro start rem hrem hpre hfin
    obtain ⟨rem', rfl⟩ : ∃ m, rem = m + 1 := ⟨rem - 1, by omega⟩
    rw [pollFrom_succ_retry rem' (by simpa using hpre 0 (by omega))]
    rw [ih (start + 1) rem' (by omega)
      (fun i hi => by
        have := hpre (i + 1) (by omega)
        rwa [show start + (i + 1) = start + 1 + i by omega] at this)
      (by rwa [show start + (n + 1) = start + 1 + n by omega] at hfin)]

/-! Concrete services used to witness the claim theorems. -/

/-- A status service answering `running` on attempts 0 and 1 and a
successful envelope with a result on attempt 2. -/
def svcRunThenSuccess : Nat → StatusResponse := fun i =>
  if i < 2 then
    ⟨200, some (JVal.num 0), none, some ⟨some (JVal.str "running"), none, none, none⟩⟩
  else
    ⟨200, some (JVal.num 0), none,
      some ⟨some (JVal.str "success"), some (JVal.str "sid1"), some (JVal.str "res1"), none⟩⟩

/-- A status service always answering HTTP 500. -/
def svcAlways500 : Nat → StatusResponse := fun _ => ⟨500, none, none, none⟩

/-- A status service always answering a failed envelope with error `"x"`. -/
def svcFailedX : Nat → StatusResponse := fun _ =>
  ⟨200, some (JVal.num 0), none, some ⟨some (JVal.str "failed"), none, none, some (JVal.str "x")⟩⟩

/-- C1: if the status endpoint answers a well-formed `running`/`waiting`
envelope on each of the first N attempts and a well-formed `success`
envelope with a `result` field on attempt N+1 (N below the budget), then
`get_task_result` returns `(result, session_id)` after exactly N+1 fetches
and N sleeps — one sleep after each non-terminal fetch, none after the
terminal fetch. -/
theorem poll_returns_result_after_N_nonterminal
    (token : String) (service : Nat → StatusResponse) (max_retries N : Nat)
    (res : JVal) (sid : Option JVal)
    (htok : token ≠ "") (hN : N < max_retries)
    (hrun : ∀ i, i < N → runningOrWaiting (service i))
    (hsucc : successWithResult (service N) res sid) :
    get_task_result token service max_retries = .ok ⟨.ok res sid, N + 1, N⟩ := by
  unfold get_task_result
  rw [if_neg htok]
  have hmain : pollFrom service 0 max_retries = ⟨.ok res sid, N + 1, N⟩ := by
    apply pollFrom_reach_finish service (.ok res sid) N 0 max_retries hN
    · intro i hi
      rw [Nat.zero_add]
      obtain ⟨h200, hcode, d, hd, hst⟩ := hrun i hi
      apply pollStep_retry
      right
      exact ⟨d, hd, by rcases hst with h | h <;> simp [h, statusIs],
        by rcases hst with h | h <;> simp [h, statusIs]⟩
    · rw [Nat.zero_add]
      obtain ⟨h200, hcode, d, hd, hst, hres, hsid⟩ := hsucc
      rw [pollStep_success_result h200 hcode hd hst hres, hsid]
  rw [hmain]

/-- C1 witness: two `running` answers then a success with result yields the
result after 3 fetches and 2 sleeps within a budget of 5. -/
theorem poll_returns_result_after_N_nonterminal_witness :
    get_task_result "tok" svcRunThenSuccess 5 =
      .ok ⟨.ok (JVal.str "res1") (some (JVal.str "sid1")), 3, 2⟩ :=
  poll_returns_result_after_N_nonterminal "tok" svcRunThenSuccess 5 2
    (JVal.str "res1") (some (JVal.str "sid1"))
    (by decide) (by decide)
    (fun i hi => by
      unfold runningOrWaiting svcRunThenSuccess
      rw [if_pos hi]
      exact ⟨rfl, rfl, _, rfl, Or.inl rfl⟩)
    (by
      unfold successWithResult svcRunThenSuccess
      exact ⟨rfl, rfl, _, rfl, rfl, rfl, rfl⟩)

/-- C2: if every attempt within the budget is non-terminal (`waiting`,
`running`, unrecognized status, or a transient fault), `get_task_result`
raises the timeout exception after exactly `max_retries` fetches (and as
many sleeps). -/
theorem poll_times_out_after_max_retries
    (token : String) (service : Nat → StatusResponse) (max_retries : Nat)
    (htok : token ≠ "") (_hpos : 1 ≤ max_retries)
    (h : ∀ i, i < max_retries → nonterminalAttempt (service i)) :
    get_task_result token service max_retries =
      .ok ⟨.timeout, max_retries, max_retries⟩ := by
  unfold get_task_result
  rw [if_neg htok]
  have hmain : pollFrom service 0 max_retries = ⟨.timeout, max_retries, max_retries⟩ := by
    apply pollFrom_timeout
    intro i hi
    rw [Nat.zero_add]
    exact pollStep_retry (h i hi)
  rw [hmain]

/-- C2 witness: a service answering HTTP 500 forever times out after
exactly 3 fetches with a budget of 3. -/
theorem poll_times_out_after_max_retries_witness :
    get_task_result "tok" svcAlways500 3 = .ok ⟨.timeout, 3, 3⟩ :=
  poll_times_out_after_max_retries "tok" svcAlways500 3 (by decide) (by decide)
    (fun i _ => Or.inl (Or.inl (by simp [svcAlways500])))

/-- C3: on any attempt index with any remaining budget, a well-formed
envelope with status `"failed"` makes the loop raise `Task failed`
immediately, carrying `data.error` (or the default `"Unknown error"` when
absent), with one fetch and no sleep; and `"failed"` is the only status a
raised task failure can come from. -/
theorem poll_failed_raises_immediately :
    (∀ (service : Nat → StatusResponse) (start rem : Nat) (d : StatusData),
      failedEnvelope (service start) d →
      pollFrom service start (rem + 1) =
        ⟨.taskFailed (d.error.getD (JVal.str "Unknown error")), 1, 0⟩)
    ∧ ∀ (r : StatusResponse) (e : JVal), pollStep r = .finish (.taskFailed e) →
        ∃ d, r.data = some d ∧ statusIs d.status "failed" = true ∧
          e = d.error.getD (JVal.str "Unknown error") := by
  constructor
  · intro service start rem d hfail
    obtain ⟨h200, hcode, hd, hs⟩ := hfail
    exact pollFrom_succ_finish rem (pollStep_failed h200 hcode hd hs)
  · intro r e h
    exact pollStep_taskFailed_inv h

/-- C3 witness: a failed envelope with error `"x"` raises the task failure
carrying `"x"` on the first fetch of a 5-attempt budget, with no sleep. -/
theorem poll_failed_raises_immediately_witness :
    pollFrom svcFailedX 0 5 = ⟨.taskFailed (JVal.str "x"), 1, 0⟩ :=
  poll_failed_raises_immediately.1 svcFailedX 0 4
    ⟨some (JVal.str "failed"), none, none, some (JVal.str "x")⟩
    ⟨rfl, rfl, rfl, rfl⟩

/-- C4: a transient-fault attempt (HTTP status other than 200, envelope
code not 0, or missing `data`) does not raise: the loop sleeps once and
proceeds to the next attempt with one unit of budget consumed. -/
theorem poll_transient_fault_sleeps_and_continues
    (service : Nat → StatusResponse) (start rem : Nat)
    (h : transientFault (service start)) :
    pollFrom service start (rem + 1) =
      ⟨(pollFrom service (start + 1) rem).outcome,
       (pollFrom service (start + 1) rem).fetches + 1,
       (pollFrom service (start + 1) rem).sleeps + 1⟩ :=
  pollFrom_succ_retry rem (pollStep_retry (Or.inl h))

/-- C4 witness: an HTTP-500 attempt consumes one attempt, one sleep, and
hands over to the remaining budget. -/
theorem poll_transient_fault_sleeps_and_continues_witness :
    pollFrom svcAlways500 0 3 =
      ⟨(pollFrom svcAlways500 1 2).outcome,
       (pollFrom svcAlways500 1 2).fetches + 1,
       (pollFrom svcAlways500 1 2).sleeps + 1⟩ :=
  poll_transient_fault_sleeps_and_continues svcAlways500 0 2 (Or.inl (by decide))

/-- A submit response satisfying the success contract with task uuid
`"uuid1"`. -/
def submitRespOk : SubmitResponse :=
  ⟨200, some (JVal.num 0), none, some ⟨some (JVal.str "uuid1")⟩⟩

/-- A status service always answering a successful envelope with no
`result` field. -/
def svcSuccessNoResult : Nat → StatusResponse := fun _ =>
  ⟨200, some (JVal.num 0), none,
    some ⟨some (JVal.str "success"), some (JVal.str "sid2"), none, none⟩⟩

/-- C5: the fail-open entry points swallow every exception: whenever the
submission raises (any `SubmitError`, the config error included) or the
poll raises (task failure or timeout), `detect_objects` and
`get_region_descriptions` return `({"objects": []}, session_id)` with the
caller's original `session_id`; neither function can raise, being total
functions into result pairs by construction. -/
theorem detect_and_describe_swallow_errors :
    (∀ (token : String) (submitResp : SubmitResponse)
       (service : Nat → StatusResponse) (sid : Option JVal),
      ((∃ e, detect_objects_async token submitResp = .error e) ∨
       (∃ t, get_task_result token service 30 = .ok t ∧
         ((∃ e, t.outcome = .taskFailed e) ∨ t.outcome = .timeout))) →
      detect_objects token submitResp service sid = (emptyObjects, sid))
    ∧ ∀ (token : String) (submitResp : SubmitResponse)
        (service : Nat → StatusResponse) (sid : Option JVal),
      ((∃ e, create_region_vl_task token submitResp = .error e) ∨
       (∃ t, get_task_result token service 30 = .ok t ∧
         ((∃ e, t.outcome = .taskFailed e) ∨ t.outcome = .timeout))) →
      get_region_descriptions token submitResp service sid = (emptyObjects, sid) := by
  constructor
  · intro token submitResp service sid h
    rcases h with ⟨e, he⟩ | ⟨t, ht, hout⟩
    · unfold detect_objects
      rw [he]
    · unfold detect_objects
      cases hsub : detect_objects_async token submitResp with
      | error e => rfl
      | ok u =>
        rw [ht]
        rcases hout with ⟨e2, he2⟩ | he2 <;> simp [he2]
  · intro token submitResp service sid h
    rcases h with ⟨e, he⟩ | ⟨t, ht, hout⟩
    · unfold get_region_descriptions
      rw [he]
    · unfold get_region_descriptions
      cases hsub : create_region_vl_task token submitResp with
      | error e => rfl
      | ok u =>
        rw [ht]
        rcases hout with ⟨e2, he2⟩ | he2 <;> simp [he2]

/-- C5 witness: with an empty token the submission raises the config
error, and `detect_objects` returns the empty result with the original
session id. -/
theorem detect_and_describe_swallow_errors_witness :
    detect_objects "" submitRespOk svcAlways500 (some (JVal.str "orig")) =
      (emptyObjects, some (JVal.str "orig")) :=
  detect_and_describe_swallow_errors.1 "" submitRespOk svcAlways500
    (some (JVal.str "orig")) (Or.inl ⟨SubmitError.configError, rfl⟩)

/-- Helper: `create_region_vl_task` performs exactly the response checking of
`detect_objects_async`. -/
lemma create_region_eq_detect_async (token : String) (resp : SubmitResponse) :
    create_region_vl_task token resp = detect_objects_async token resp := rfl

lemma submit_ok_iff (token : String) (resp : SubmitResponse) (u : JVal)
    (htok : token ≠ "") :
    detect_objects_async token resp = .ok u ↔ submitSuccess resp u := by
  unfold detect_objects_async
  rw [if_neg htok]
  by_cases h200 : resp.status_code = 200
  · by_cases hcode : codeIsZero resp.code
    · cases hdata : resp.data with
      | none => simp [h200, hcode, hdata, submitSuccess]
      | some d =>
        cases huuid : d.task_uuid with
        | none => simp [h200, hcode, hdata, huuid, submitSuccess]
        | some u' =>
          simp [h200, hcode, hdata, huuid, submitSuccess, eq_comm]
    · simp [h200, hcode, submitSuccess]
  · simp [h200, submitSuccess]

/-- C6: with the token present, the submit calls return the task id
`data.task_uuid` exactly when the response has HTTP 200, envelope code 0
and a `data.task_uuid` field; each violation raises the corresponding
error carrying its causing detail (status code, envelope msg, or the
missing field), identically for `detect_objects_async` and
`create_region_vl_task`. -/
theorem submit_returns_task_uuid_iff_contract
    (token : String) (resp : SubmitResponse) (htok : token ≠ "") :
    (∀ u, detect_objects_async token resp = .ok u ↔ submitSuccess resp u)
    ∧ (∀ u, create_region_vl_task token resp = .ok u ↔ submitSuccess resp u)
    ∧ (resp.status_code ≠ 200 →
        detect_objects_async token resp = .error (.httpError resp.status_code) ∧
        create_region_vl_task token resp = .error (.httpError resp.status_code))
    ∧ (resp.status_code = 200 → codeIsZero resp.code = false →
        detect_objects_async token resp = .error (.apiFailed resp.msg) ∧
        create_region_vl_task token resp = .error (.apiFailed resp.msg))
    ∧ (resp.status_code = 200 → codeIsZero resp.code = true → resp.data = none →
        detect_objects_async token resp = .error .missingData ∧
        create_region_vl_task token resp = .error .missingData)
    ∧ ∀ d, resp.status_code = 200 → codeIsZero resp.code = true →
        resp.data = some d → d.task_uuid = none →
        detect_objects_async token resp = .error .missingTaskUuid ∧
        create_region_vl_task token resp = .error .missingTaskUuid := by
  refine ⟨fun u => submit_ok_iff token resp u htok,
    fun u => (create_region_eq_detect_async token resp) ▸ submit_ok_iff token resp u htok,
    ?_, ?_, ?_, ?_⟩
  · intro h200
    constructor <;>
      simp [detect_objects_async, create_region_vl_task, htok, h200]
  · intro h200 hcode
    constructor <;>
      simp [detect_objects_async, create_region_vl_task, htok, h200, hcode]
  · intro h200 hcode hdata
    constructor <;>
      simp [detect_objects_async, create_region_vl_task, htok, h200, hcode, hdata]
  · intro d h200 hcode hdata huuid
    constructor <;>
      simp [detect_objects_async, create_region_vl_task, htok, h200, hcode, hdata, huuid]

/-- C6 witness: a contract-satisfying response makes the submit call
return its task uuid. -/
theorem submit_returns_task_uuid_iff_contract_witness :
    detect_objects_async "tok" submitRespOk = .ok (JVal.str "uuid1") :=
  ((submit_returns_task_uuid_iff_contract "tok" submitRespOk (by decide)).1
    (JVal.str "uuid1")).mpr ⟨rfl, rfl, _, rfl, rfl⟩

/-- C7: a well-formed success envelope terminates the poll at once: with a
`result` field it returns `(data.result, data.session_id)`, without one it
returns `({}, data.session_id)` — a degraded empty success, not an
error. -/
theorem poll_success_missing_result_degrades :
    ∀ (service : Nat → StatusResponse) (start rem : Nat) (d : StatusData),
      successEnvelope (service start) d →
      ((d.result = none →
        pollFrom service start (rem + 1) = ⟨.ok (JVal.obj []) d.session_id, 1, 0⟩)
      ∧ ∀ res, d.result = some res →
        pollFrom service start (rem + 1) = ⟨.ok res d.session_id, 1, 0⟩) := by
  intro service start rem d hsucc
  obtain ⟨h200, hcode, hd, hs⟩ := hsucc
  constructor
  · intro hres
    exact pollFrom_succ_finish rem (pollStep_success_degraded h200 hcode hd hs hres)
  · intro res hres
    exact pollFrom_succ_finish rem (pollStep_success_result h200 hcode hd hs hres)

/-- C7 witness: a success envelope with no `result` field returns the
empty mapping and the envelope's session id on the first fetch. -/
theorem poll_success_missing_result_degrades_witness :
    pollFrom svcSuccessNoResult 0 1 =
      ⟨.ok (JVal.obj []) (some (JVal.str "sid2")), 1, 0⟩ :=
  (poll_success_missing_result_degrades svcSuccessNoResult 0 0
    ⟨some (JVal.str "success"), some (JVal.str "sid2"), none, none⟩
    ⟨rfl, rfl, rfl, rfl⟩).1 rfl

/-- C8: when the module-level token value is absent (falsy, i.e. the empty
string), the raising entry points fail with the configuration error
(`ValueError`) whatever the service would answer — the guard runs before
any network request is consulted. -/
theorem empty_token_raises_config_error_first
    (resp : SubmitResponse) (service : Nat → StatusResponse) (max_retries : Nat) :
    detect_objects_async "" resp = .error .configError
    ∧ create_region_vl_task "" resp = .error .configError
    ∧ get_task_result "" service max_retries =
        .error "API token not found. Please set the DINOX_API_TOKEN environment variable." :=
  ⟨rfl, rfl, rfl⟩

/-- C8 witness: the empty-token behaviour at one concrete response,
service and budget. -/
theorem empty_token_raises_config_error_first_witness :
    detect_objects_async "" submitRespOk = .error .configError
    ∧ create_region_vl_task "" submitRespOk = .error .configError
    ∧ get_task_result "" svcAlways500 3 =
        .error "API token not found. Please set the DINOX_API_TOKEN environment variable." :=
  empty_token_raises_config_error_first submitRespOk svcAlways500 3

lemma submit_no_config_error (token : String) (resp : SubmitResponse)
    (htok : token ≠ "") :
    detect_objects_async token resp ≠ .error .configError := by
  unfold detect_objects_async
  rw [if_neg htok]
  split
  · simp
  · split
    · simp
    · split
      · simp
      · split <;> simp

/-- C9 (implicit): `API_TOKEN` is never the empty string — the environment
value when set and non-empty, else the hardcoded placeholder — so the
`if not API_TOKEN` guards of `detect_objects_async`, `get_task_result` and
`create_region_vl_task` are unreachable, and with the environment variable
missing the client still proceeds, sending the placeholder in the `Token`
header instead of failing fast. -/
theorem api_token_never_empty_guard_unreachable :
    (∀ env, API_TOKEN env ≠ "")
    ∧ API_TOKEN none = "你的API令牌"
    ∧ API_TOKEN (some "") = "你的API令牌"
    ∧ (∀ s, s ≠ "" → API_TOKEN (some s) = s)
    ∧ (∀ env resp, detect_objects_async (API_TOKEN env) resp ≠ .error .configError)
    ∧ (∀ env resp, create_region_vl_task (API_TOKEN env) resp ≠ .error .configError)
    ∧ (∀ env service max_retries,
        get_task_result (API_TOKEN env) service max_retries =
          .ok (pollFrom service 0 max_retries))
    ∧ requestHeaders (API_TOKEN none) =
        [("Token", "你的API令牌"), ("Content-Type", "application/json")] := by
  have hne : ∀ env, API_TOKEN env ≠ "" := by
    intro env
    cases env with
    | none => decide
    | some s =>
      by_cases h : s = ""
      · simp [API_TOKEN, h]
      · simp [API_TOKEN, h]
  refine ⟨hne, rfl, rfl, ?_, ?_, ?_, ?_, rfl⟩
  · intro s h
    simp [API_TOKEN, h]
  · intro env resp
    exact submit_no_config_error (API_TOKEN env) resp (hne env)
  · intro env resp
    rw [create_region_eq_detect_async]
    exact submit_no_config_error (API_TOKEN env) resp (hne env)
  · intro env service max_retries
    unfold get_task_result
    rw [if_neg (hne env)]

/-- C9 witness: a set, non-empty environment value is used verbatim. -/
theorem api_token_never_empty_guard_unreachable_witness :
    API_TOKEN (some "secret") = "secret" :=
  api_token_never_empty_guard_unreachable.2.2.2.1 "secret" (by decide)

/-- C10 (implicit): with `prompt_type = "text"` but `prompt_text` `None` or
empty, or `prompt_type = "universal"` but `prompt_universal` falsy, the
payload's prompt mapping is the bare type tag, with no `text` or
`universal` key — in both `detect_objects_async`'s payload and the
optional prompt entry of `create_region_vl_task`'s payload. -/
theorem falsy_prompt_payload_tag_only :
    (∀ (prompt_text : Option String) (prompt_universal : Option JVal),
      (prompt_text = none ∨ prompt_text = some "") →
      buildPrompt "text" prompt_text prompt_universal = [("type", JVal.str "text")])
    ∧ (∀ (prompt_text : Option String) (prompt_universal : Option JVal),
      (prompt_universal = none ∨ ∃ v, prompt_universal = some v ∧ v.truthy = false) →
      buildPrompt "universal" prompt_text prompt_universal =
        [("type", JVal.str "universal")])
    ∧ (∀ (prompt_text : Option String) (prompt_universal : Option JVal),
      (prompt_text = none ∨ prompt_text = some "") →
      regionPrompt (some "text") prompt_text prompt_universal =
        some [("type", JVal.str "text")])
    ∧ ∀ (prompt_text : Option String) (prompt_universal : Option JVal),
      (prompt_universal = none ∨ ∃ v, prompt_universal = some v ∧ v.truthy = false) →
      regionPrompt (some "universal") prompt_text prompt_universal =
        some [("type", JVal.str "universal")] := by
  refine ⟨?_, ?_, ?_, ?_⟩
  · intro ptxt pu h
    rcases h with rfl | rfl <;> rfl
  · intro ptxt pu h
    rcases h with rfl | ⟨v, rfl, hv⟩
    · rfl
    · simp [buildPrompt, optTruthy, hv]
  · intro ptxt pu h
    rcases h with rfl | rfl <;> rfl
  · intro ptxt pu h
    rcases h with rfl | ⟨v, rfl, hv⟩
    · rfl
    · simp [regionPrompt, buildPrompt, optTruthy, hv]

/-- C10 witness: a `"text"` prompt with `prompt_text` absent is sent as
the bare tag. -/
theorem falsy_prompt_payload_tag_only_witness :
    buildPrompt "text" none none = [("type", JVal.str "text")] :=
  falsy_prompt_payload_tag_only.1 none none (Or.inl rfl)

end Dinox
